import Mathlib

/-!
Verification of the Shastina front-end tokenizer / block reader.

This file gives a shallow embedding of the two C modules `shastina.c`
and `shasm_block.c` and proves properties of the embedded code.

Modelling conventions, used throughout:

* C `long` values are modelled as `Int` (LP64 `LONG_MAX`); `int`
  status results (zero / non-zero) are modelled as `Bool`.
* A `FILE` open for reading is modelled as the list of remaining byte
  values (each in 0..255).  `getc` returns the head, or `-1` (the C
  `EOF` macro, with `feof` true) on an empty list; `ungetc` prepends a
  byte.  I/O errors of the underlying stream are not modelled: the
  model file only produces bytes and end-of-file, so the `SNERR_IOERR`
  branches of the source are never taken (they are still transcribed).
* `abort()` in the C source is modelled by an explicit `fault` outcome
  (or by `Option.none` where a function is otherwise pure), which
  every caller propagates.
-/

namespace Shastina

/-- Error constants of shastina.c. -/
def SNERR_IOERR : Int := -1

/-- End Of File error constant of shastina.c. -/
def SNERR_EOF : Int := -2

/-- Unrecognized file signature error constant of shastina.c. -/
def SNERR_BADSIG : Int := -3

/-- File-ends-in-string error constant of shastina.c. -/
def SNERR_OPENSTR : Int := -4

/-- String-too-long error constant of shastina.c. -/
def SNERR_LONGSTR : Int := -5

/-- Null-character-in-string error constant of shastina.c. -/
def SNERR_NULLCHR : Int := -6

/-- Too-much-curly-nesting error constant of shastina.c. -/
def SNERR_DEEPCURLY : Int := -7

/-- Illegal-character error constant of shastina.c. -/
def SNERR_BADCHAR : Int := -8

/-- Token-too-long error constant of shastina.c. -/
def SNERR_LONGTOKEN : Int := -9

/-- Content-after-terminal-token error constant of shastina.c. -/
def SNERR_TRAILER : Int := -10

/-- ASCII constant: Horizontal Tab. -/
def ASCII_HT : Int := 0x09

/-- ASCII constant: Line Feed. -/
def ASCII_LF : Int := 0x0a

/-- ASCII constant: Carriage Return. -/
def ASCII_CR : Int := 0x0d

/-- ASCII constant: Space. -/
def ASCII_SP : Int := 0x20

/-- ASCII constant: double quote. -/
def ASCII_DQUOTE : Int := 0x22

/-- ASCII constant: pound sign. -/
def ASCII_POUNDSIGN : Int := 0x23

/-- ASCII constant: percent sign. -/
def ASCII_PERCENT : Int := 0x25

/-- ASCII constant: left parenthesis. -/
def ASCII_LPAREN : Int := 0x28

/-- ASCII constant: right parenthesis. -/
def ASCII_RPAREN : Int := 0x29

/-- ASCII constant: comma. -/
def ASCII_COMMA : Int := 0x2c

/-- ASCII constant: semicolon. -/
def ASCII_SEMICOLON : Int := 0x3b

/-- ASCII constant: left square bracket. -/
def ASCII_LSQR : Int := 0x5b

/-- ASCII constant: backslash. -/
def ASCII_BACKSLASH : Int := 0x5c

/-- ASCII constant: right square bracket. -/
def ASCII_RSQR : Int := 0x5d

/-- ASCII constant: grave accent. -/
def ASCII_GRACCENT : Int := 0x60

/-- ASCII constant: left curly bracket. -/
def ASCII_LCURL : Int := 0x7b

/-- ASCII constant: vertical bar. -/
def ASCII_BAR : Int := 0x7c

/-- ASCII constant: right curly bracket. -/
def ASCII_RCURL : Int := 0x7d

/-- Minimum visible printing ASCII character. -/
def ASCII_VISIBLE_MIN : Int := 0x21

/-- Maximum visible printing ASCII character. -/
def ASCII_VISIBLE_MAX : Int := 0x7e

/-- First byte of the UTF-8 Byte Order Mark. -/
def SNFILTER_BOM_1 : Int := 0xef

/-- Second byte of the UTF-8 Byte Order Mark. -/
def SNFILTER_BOM_2 : Int := 0xbb

/-- Third byte of the UTF-8 Byte Order Mark. -/
def SNFILTER_BOM_3 : Int := 0xbf

/-- LONG_MAX of the target platform (LP64). -/
def LONG_MAX : Int := 9223372036854775807

/-- State of the Shastina input filter (struct SNFILTER in shastina.c):
line counter, most recently read character (or negative sentinel),
pushback flag, BOM-present flag. -/
structure SNFILTER where
  line_count : Int
  c : Int
  pushback : Bool
  bom_present : Bool
deriving Repr, DecidableEq

/-- snfilter_reset: the initial filter state. -/
def snfilter_reset : SNFILTER :=
  { line_count := 0, c := 0, pushback := false, bom_present := false }

/-- Model of getc on the model file: head byte, or -1 (EOF) when the
file is exhausted. -/
def fgetc (f : List Int) : Int × List Int :=
  match f with
  | [] => (-1, [])
  | b :: rest => (b, rest)

/-- Model of ungetc on the model file: push one byte back.  (The C
ungetc can fail; pushing back a just-read byte always succeeds.) -/
def fungetc (c : Int) (f : List Int) : List Int := c :: f

/-- First block of snfilter_read of shastina.c, run when line_count
is zero (the very first read): check for a UTF-8 BOM and filter it
out (setting bom_present) if present, otherwise push the first byte
back.  Returns the err_num value of the block (zero when no error),
the updated filter and the remaining file. -/
def snfilter_read_bom (flt : SNFILTER) (fil : List Int) :
    Int × SNFILTER × List Int :=
  -- Read the first character
  let t := fgetc fil
  let c := t.1
  let fil := t.2
  if c = -1 then
    (SNERR_EOF, flt, fil)
  else if c = SNFILTER_BOM_1 then
    -- A UTF-8 BOM may be starting: require the second byte
    let t2 := fgetc fil
    let c2 := t2.1
    let fil := t2.2
    if c2 = -1 then
      (SNERR_BADSIG, flt, fil)
    else if c2 ≠ SNFILTER_BOM_2 then
      (SNERR_BADSIG, flt, fil)
    else
      -- Require the third byte
      let t3 := fgetc fil
      let c3 := t3.1
      let fil := t3.2
      if c3 = -1 then
        (SNERR_BADSIG, flt, fil)
      else if c3 ≠ SNFILTER_BOM_3 then
        (SNERR_BADSIG, flt, fil)
      else
        (0, { flt with bom_present := true }, fil)
  else
    -- First character not part of a UTF-8 BOM; unread it
    (0, flt, fungetc c fil)

/-- Second block of snfilter_read of shastina.c, run when a fresh
character must be read (no pushback, no latched condition): read a
byte, normalize CR/LF pairs and bare CR to a single LF, and update
the stored character and the line counter.  Returns the err_num
value of the block, the updated filter and the remaining file. -/
def snfilter_read_normal (flt : SNFILTER) (fil : List Int) :
    Int × SNFILTER × List Int :=
  -- Read a character
  let t := fgetc fil
  let c := t.1
  let fil := t.2
  if c = -1 then
    (SNERR_EOF, flt, fil)
  else
    -- On CR or LF, try to pair with the next character to form a
    -- CR+LF or LF+CR combination; if there is no pair, unread the
    -- peeked character unless it was EOF (the model getc already
    -- returns the C special value -1 at EOF)
    let p : Int × List Int :=
      if c = ASCII_CR ∨ c = ASCII_LF then
        let t2 := fgetc fil
        let c2 := t2.1
        let fil2 := t2.2
        if (c = ASCII_LF ∧ c2 ≠ ASCII_CR) ∨
            (c = ASCII_CR ∧ c2 ≠ ASCII_LF) then
          (c, if c2 ≠ -1 then fungetc c2 fil2 else fil2)
        else
          (c, fil2)
      else
        (c, fil)
    let c := p.1
    let fil := p.2
    -- Convert CR to LF
    let c := if c = ASCII_CR then ASCII_LF else c
    -- Update the filter state
    let flt :=
      if flt.line_count = 0 then
        { flt with c := c, line_count := 1 }
      else if c = ASCII_LF ∧ flt.line_count < LONG_MAX then
        { flt with line_count := flt.line_count + 1, c := c }
      else
        { flt with c := c }
    (0, flt, fil)

/-- snfilter_read of shastina.c: read the next character through the
input filter.  Runs the BOM block on the very first read and the
normal-read block unless pushback or a latched condition short
circuits it, then clears the pushback flag and latches any error
into the stored character, which is returned. -/
def snfilter_read (pFilter : SNFILTER) (pIn : List Int) :
    Int × SNFILTER × List Int :=
  -- BOM detection on the very first read
  let r1 : Int × SNFILTER × List Int :=
    if pFilter.line_count = 0 then snfilter_read_bom pFilter pIn
    else (0, pFilter, pIn)
  let err1 := r1.1
  let flt1 := r1.2.1
  let fil1 := r1.2.2
  -- If not in pushback mode and no special condition, read another
  -- character
  let r2 : Int × SNFILTER × List Int :=
    if err1 = 0 ∧ flt1.pushback = false ∧
        (flt1.line_count = 0 ∨ flt1.c ≥ 0) then
      snfilter_read_normal flt1 fil1
    else
      (err1, flt1, fil1)
  let err2 := r2.1
  let flt2 := r2.2.1
  let fil2 := r2.2.2
  -- Clear the pushback flag even on error or EOF
  let flt3 := { flt2 with pushback := false }
  -- Latch an error or EOF condition into the structure
  let flt4 := if err2 ≠ 0 then { flt3 with c := err2 } else flt3
  (flt4.c, flt4, fil2)

/-- snfilter_count of shastina.c: the current line count, adjusted at
query time for pushback of an LF. -/
def snfilter_count (pFilter : SNFILTER) : Int :=
  -- Read the current line count, changing zero to one
  let lc : Int := if pFilter.line_count < 1 then 1 else pFilter.line_count
  -- If not in pushback mode, c is LF, not at the very beginning of
  -- the file and not overflowed, increase the count by one
  if pFilter.pushback = false ∧ pFilter.line_count > 0 ∧
      pFilter.c = ASCII_LF ∧ lc < LONG_MAX then
    lc + 1
  else
    lc

/-- snfilter_pushback of shastina.c: set the pushback flag so the
character just read will be read again.  Returns the status
(true for the C non-zero success result) and the new filter state. -/
def snfilter_pushback (pFilter : SNFILTER) : Bool × SNFILTER :=
  -- Only proceed if not in special state
  if pFilter.line_count = 0 ∨ pFilter.c ≥ 0 then
    -- The flag can be set only if it is not already set and at least
    -- one character has been read
    if pFilter.line_count > 0 ∧ pFilter.pushback = false then
      (true, { pFilter with pushback := true })
    else
      (false, pFilter)
  else
    (true, pFilter)


/-- snchar_islegal of shastina.c: legal outside string literals and
comments (visible printing ASCII plus SP, HT, LF). -/
def snchar_islegal (c : Int) : Bool :=
  (ASCII_VISIBLE_MIN ≤ c ∧ c ≤ ASCII_VISIBLE_MAX) ∨
    c = ASCII_SP ∨ c = ASCII_HT ∨ c = ASCII_LF

/-- snchar_isatomic of shastina.c: characters that stand by themselves
as a full token. -/
def snchar_isatomic (c : Int) : Bool :=
  c = ASCII_LPAREN ∨ c = ASCII_RPAREN ∨
    c = ASCII_LSQR ∨ c = ASCII_RSQR ∨
    c = ASCII_COMMA ∨ c = ASCII_PERCENT ∨
    c = ASCII_SEMICOLON ∨ c = ASCII_DQUOTE ∨
    c = ASCII_GRACCENT ∨ c = ASCII_LCURL ∨
    c = ASCII_RCURL

/-- snchar_isinclusive of shastina.c: token closers kept as the last
character of the token. -/
def snchar_isinclusive (c : Int) : Bool :=
  c = ASCII_DQUOTE ∨ c = ASCII_GRACCENT ∨ c = ASCII_LCURL

/-- snchar_isexclusive of shastina.c: token closers pushed back rather
than included in the token. -/
def snchar_isexclusive (c : Int) : Bool :=
  c = ASCII_HT ∨ c = ASCII_SP ∨ c = ASCII_LF ∨
    c = ASCII_LPAREN ∨ c = ASCII_RPAREN ∨
    c = ASCII_LSQR ∨ c = ASCII_RSQR ∨
    c = ASCII_COMMA ∨ c = ASCII_PERCENT ∨
    c = ASCII_SEMICOLON ∨ c = ASCII_POUNDSIGN ∨
    c = ASCII_RCURL

/-!
String buffers (SNBUFFER).  At the data level an SNBUFFER is its
stored character sequence plus its fixed maximum capacity `maxcap`;
the allocation bookkeeping (initcap, cap doubling) only changes when
memory is allocated, never what is stored, and is abstracted away:
snbuffer_append succeeds exactly when count < maxcap - 1 (one slot is
reserved for the terminating null).  The out-of-range abort() of
snbuffer_append is modelled by the fault outcome.
-/

/-- snbuffer_append of shastina.c: append a character (valid range
1-255; anything else is an abort, modelled as none).  Returns the
status and the new contents: false with contents unchanged when the
buffer is out of capacity. -/
def snbuffer_append (maxcap : Int) (buf : List Int) (c : Int) :
    Option (Bool × List Int) :=
  if c < 1 ∨ c > 255 then
    none
  else if (buf.length : Int) < maxcap - 1 then
    some (true, buf ++ [c])
  else
    some (false, buf)

/-!
The string readers and the token scanner of shastina.c consume input
one character at a time through snfilter_read and give back at most
the most recently read character through snfilter_pushback.  They are
embedded over the stream of values that snfilter_read delivers: a
`List Int` of filter results (bytes 0-255 and negative sentinels).
Reading from the empty stream yields SNERR_EOF; a negative result
latches (the filter keeps returning it), so reading a negative head
leaves the stream unchanged; pushing back a character prepends it,
and pushing back after a negative result is the no-op that
snfilter_pushback performs in a terminal state.
-/

/-- One snfilter_read call on a stream of filter results. -/
def snstream_read (s : List Int) : Int × List Int :=
  match s with
  | [] => (SNERR_EOF, [])
  | c :: rest => if c < 0 then (c, c :: rest) else (c, rest)

/-- One snfilter_pushback call on a stream of filter results: the
just-read character c is delivered again by the next read; in a
terminal state (negative c) the call is a no-op. -/
def snstream_pushback (c : Int) (s : List Int) : List Int :=
  if c < 0 then s else c :: s

/-- Result of a shastina.c reader: successful data plus remaining
stream, an SNERR error code, or a fault (a C abort was reached). -/
inductive SnResult where
  | ok (data : List Int) (rest : List Int)
  | err (code : Int)
  | fault
deriving Repr, DecidableEq

/-- Loop of snstr_readQuoted of shastina.c, one iteration per read
character.  esc_flag is the escape flag, buf the buffer contents so
far. -/
def snstr_readQuotedLoop (maxcap : Int) (esc_flag : Bool)
    (buf : List Int) (s : List Int) : SnResult :=
  match s with
  | [] => .err SNERR_OPENSTR   -- read gives SNERR_EOF
  | c :: rest =>
    if c < 0 then
      -- error result from the filter
      .err (if c = SNERR_EOF then SNERR_OPENSTR else c)
    else
      -- done when the character is a double quote and the escape
      -- flag is not set
      if esc_flag = false ∧ c = ASCII_DQUOTE then
        .ok buf rest
      else
        -- update escape flag: set when the current character is a
        -- backslash, clear otherwise
        let esc : Bool := c = ASCII_BACKSLASH
        -- a null character is an error
        if c = 0 then
          .err SNERR_NULLCHR
        else
          match snbuffer_append maxcap buf c with
          | none => .fault
          | some (true, buf2) => snstr_readQuotedLoop maxcap esc buf2 rest
          | some (false, _) => .err SNERR_LONGSTR

/-- snstr_readQuoted of shastina.c: read a double-quoted string after
the opening quote, over the stream of filter results. -/
def snstr_readQuoted (maxcap : Int) (s : List Int) : SnResult :=
  snstr_readQuotedLoop maxcap false [] s

/-- Loop of snstr_readCurlied of shastina.c, one iteration per read
character.  nest_level is the curly bracket nesting level. -/
def snstr_readCurliedLoop (maxcap : Int) (esc_flag : Bool)
    (nest_level : Int) (buf : List Int) (s : List Int) : SnResult :=
  match s with
  | [] => .err SNERR_OPENSTR
  | c :: rest =>
    if c < 0 then
      .err (if c = SNERR_EOF then SNERR_OPENSTR else c)
    else
      -- when the escape flag is clear, a curly bracket changes the
      -- nesting level (left curly checks for overflow)
      if esc_flag = false ∧ c = ASCII_LCURL ∧ nest_level = LONG_MAX then
        .err SNERR_DEEPCURLY
      else
        let nest : Int :=
          if esc_flag = false ∧ c = ASCII_LCURL then nest_level + 1
          else if esc_flag = false ∧ c = ASCII_RCURL then nest_level - 1
          else nest_level
        -- done when the nesting level returns to zero (the closing
        -- bracket is consumed but not stored)
        if nest < 1 then
          .ok buf rest
        else
          let esc : Bool := c = ASCII_BACKSLASH
          if c = 0 then
            .err SNERR_NULLCHR
          else
            match snbuffer_append maxcap buf c with
            | none => .fault
            | some (true, buf2) =>
              snstr_readCurliedLoop maxcap esc nest buf2 rest
            | some (false, _) => .err SNERR_LONGSTR

/-- snstr_readCurlied of shastina.c: read a curly-quoted string after
the opening bracket (nesting level starts at one), over the stream of
filter results. -/
def snstr_readCurlied (maxcap : Int) (s : List Int) : SnResult :=
  snstr_readCurliedLoop maxcap false 1 [] s

mutual

/-- Main loop of sntk_skip of shastina.c: drop whitespace; on a pound
sign enter a comment; on anything else (including a negative result)
push the character back (a no-op for negative results) and stop. -/
def sntk_skip (s : List Int) : List Int :=
  match s with
  | [] => []   -- read gives SNERR_EOF, which is not pushed back
  | c :: rest =>
    if c < 0 then
      c :: rest   -- latched condition; pushback is a no-op
    else if c = ASCII_SP ∨ c = ASCII_HT ∨ c = ASCII_LF then
      sntk_skip rest
    else if c = ASCII_POUNDSIGN then
      sntk_skipComment rest
    else
      c :: rest   -- pushback of c

/-- Comment part of sntk_skip of shastina.c: consume through the next
LF (the LF is part of the comment), then resume skipping; a negative
result ends the skip with no pushback. -/
def sntk_skipComment (s : List Int) : List Int :=
  match s with
  | [] => []
  | c :: rest =>
    if c < 0 then
      c :: rest
    else if c = ASCII_LF then
      sntk_skip rest
    else
      sntk_skipComment rest

end

/-- Inner loop of sntk_readToken of shastina.c: read additional token
characters up to the exclusive or inclusive character that ends the
token. -/
def sntk_tokenLoop (maxcap : Int) (buf : List Int) (s : List Int) :
    SnResult :=
  match s with
  | [] => .err SNERR_EOF
  | c :: rest =>
    if c < 0 then
      .err c
    else if snchar_islegal c = false then
      .err SNERR_BADCHAR
    else
      -- leave flag is set for inclusive and exclusive characters;
      -- omit flag and pushback only for exclusive characters
      if snchar_isexclusive c then
        .ok buf (snstream_pushback c rest)
      else if snchar_isinclusive c then
        match snbuffer_append maxcap buf c with
        | none => .fault
        | some (true, buf2) => .ok buf2 rest
        | some (false, _) => .err SNERR_LONGTOKEN
      else
        match snbuffer_append maxcap buf c with
        | none => .fault
        | some (true, buf2) => sntk_tokenLoop maxcap buf2 rest
        | some (false, _) => .err SNERR_LONGTOKEN

/-- Tail of sntk_readToken of shastina.c handling the terminal token:
after |; was read, skip whitespace and comments and confirm EOF. -/
def sntk_checkTrailer (buf : List Int) (s : List Int) : SnResult :=
  let s1 := sntk_skip s
  let t := snstream_read s1
  if t.1 ≠ SNERR_EOF then
    if t.1 ≥ 0 then .err SNERR_TRAILER else .err t.1
  else
    .ok buf t.2

/-- sntk_readToken of shastina.c: skip whitespace and comments, then
read one token, applying the legal / atomic / inclusive / exclusive
character rules and the special handling of the |; terminal token. -/
def sntk_readToken (maxcap : Int) (s : List Int) : SnResult :=
  -- Skip whitespace and comments
  let s1 := sntk_skip s
  -- Read a character
  let t := snstream_read s1
  let c := t.1
  let s2 := t.2
  if c < 0 then
    .err c
  else if snchar_islegal c = false then
    .err SNERR_BADCHAR
  else
    -- Add the first character to the buffer
    match snbuffer_append maxcap [] c with
    | none => .fault
    | some (false, _) => .err SNERR_LONGTOKEN
    | some (true, buf1) =>
      -- Check for the |; pair when the first character is a bar
      if c = ASCII_BAR then
        let t2 := snstream_read s2
        let c2 := t2.1
        let s3 := t2.2
        if c2 < 0 then
          .err c2
        else if c2 = ASCII_SEMICOLON then
          match snbuffer_append maxcap buf1 c2 with
          | none => .fault
          | some (false, _) => .err SNERR_LONGTOKEN
          | some (true, buf2) =>
            -- terminal token: confirm nothing else in the file
            sntk_checkTrailer buf2 s3
        else
          -- unread the second character and continue as a
          -- non-terminal, non-atomic token (bar is not atomic)
          sntk_tokenLoop maxcap buf1 (snstream_pushback c2 s3)
      else if snchar_isatomic c then
        .ok buf1 s2
      else
        sntk_tokenLoop maxcap buf1 s2

/-!
Embedding of shasm_block.c.  The headers shasm_error.h, shasm_ascii.h
and shasm_block.h are not part of the sources; the constants taken
from them are modelled from the spec below.  shasm_block.c itself
only ever compares a status code against SHASM_OKAY, so the exact
error code values are irrelevant to the embedded functions.
-/

/-- Modelled from the spec: the no-error status code of the missing
header shasm_error.h.  The code under test only compares statuses
against this value. -/
def SHASM_OKAY : Int := 0

/-- Modelled from the spec: the block-buffer-overflow (HugeBlock)
error code of the missing header shasm_error.h; any nonzero value. -/
def SHASM_ERR_HUGEBLOCK : Int := -108

/-- Initial capacity of the block buffer (shasm_block.c). -/
def SHASM_BLOCK_MINBUFFER : Int := 32

/-- Maximum capacity of the block buffer, including the terminating
null slot (shasm_block.c). -/
def SHASM_BLOCK_MAXBUFFER : Int := 32767

/-- Initial capacity of a temporary buffer (shasm_block.c). -/
def SHASM_BLOCK_MINTBUF : Int := 8

/-- Maximum Unicode codepoint (shasm_block.c). -/
def SHASM_BLOCK_MAXCODE : Int := 0x10ffff

/-- Minimum Unicode surrogate codepoint (shasm_block.c). -/
def SHASM_BLOCK_MINSURROGATE : Int := 0xd800

/-- Maximum Unicode surrogate codepoint (shasm_block.c). -/
def SHASM_BLOCK_MAXSURROGATE : Int := 0xdfff

/-- First high surrogate codepoint (shasm_block.c). -/
def SHASM_BLOCK_HISURROGATE : Int := 0xd800

/-- First low surrogate codepoint (shasm_block.c). -/
def SHASM_BLOCK_LOSURROGATE : Int := 0xdc00

/-- Minimum supplemental Unicode codepoint (shasm_block.c). -/
def SHASM_BLOCK_MINSUPPLEMENTAL : Int := 0x10000

/-- Minimum codepoint with a 2-byte UTF-8 encoding (shasm_block.c). -/
def SHASM_BLOCK_UTF8_2BYTE : Int := 0x80

/-- Minimum codepoint with a 3-byte UTF-8 encoding (shasm_block.c). -/
def SHASM_BLOCK_UTF8_3BYTE : Int := 0x800

/-- Minimum codepoint with a 4-byte UTF-8 encoding (shasm_block.c). -/
def SHASM_BLOCK_UTF8_4BYTE : Int := 0x10000

/-- Leading byte mask for 2-byte UTF-8 codes (shasm_block.c). -/
def SHASM_BLOCK_UTF8_2MASK : Int := 0xC0

/-- Leading byte mask for 3-byte UTF-8 codes (shasm_block.c). -/
def SHASM_BLOCK_UTF8_3MASK : Int := 0xE0

/-- Leading byte mask for 4-byte UTF-8 codes (shasm_block.c). -/
def SHASM_BLOCK_UTF8_4MASK : Int := 0xF0

/-- Block reader state (struct SHASM_BLOCK of shasm_block.c): status
code, line number, buffer capacity, stored data length, null-seen
flag and the backing buffer (pBuf, modelled as a list of byte values
of length buf_cap). -/
structure SHASM_BLOCK where
  code : Int
  line : Int
  buf_cap : Int
  buf_len : Int
  null_present : Bool
  pBuf : List Int
deriving Repr, DecidableEq

/-- shasm_block_alloc of shasm_block.c: a fresh block reader with an
empty, zeroed buffer of the initial capacity. -/
def shasm_block_alloc : SHASM_BLOCK :=
  { code := SHASM_OKAY, line := 1, buf_cap := SHASM_BLOCK_MINBUFFER,
    buf_len := 0, null_present := false,
    pBuf := List.replicate SHASM_BLOCK_MINBUFFER.toNat 0 }

/-- shasm_block_clear of shasm_block.c: clear the internal buffer to
an empty string, zeroing the backing memory. -/
def shasm_block_clear (pb : SHASM_BLOCK) : SHASM_BLOCK :=
  { pb with buf_len := 0, null_present := false,
            pBuf := List.replicate pb.buf_cap.toNat 0 }

/-- shasm_block_addByte of shasm_block.c: append an unsigned byte
value (0-255) to the block reader buffer, doubling the capacity
(clamped at SHASM_BLOCK_MAXBUFFER) when needed.  A byte value outside
0-255 is an abort (none).  Returns the status and the new state;
failure leaves the state unchanged. -/
def shasm_block_addByte (pb : SHASM_BLOCK) (c : Int) :
    Option (Bool × SHASM_BLOCK) :=
  -- parameter check: abort unless 0 <= c <= 255
  if c < 0 ∨ c > 255 then
    none
  -- fail immediately if already in error state
  else if pb.code ≠ SHASM_OKAY then
    some (false, pb)
  else
    -- writing the byte at index buf_len and bumping the length, plus
    -- the null_present update; shared by both branches below
    let app : SHASM_BLOCK → SHASM_BLOCK := fun b =>
      { b with null_present := if c = 0 then true else b.null_present,
               pBuf := b.pBuf.set b.buf_len.toNat c,
               buf_len := b.buf_len + 1 }
    -- if buf_len is one less than buf_cap, capacity must grow (the
    -- "one less" accounts for the terminating null)
    if pb.buf_len ≥ pb.buf_cap - 1 then
      -- fail if the length is already at the maximum capacity value
      if pb.buf_len ≥ SHASM_BLOCK_MAXBUFFER then
        some (false, pb)
      else
        -- new capacity: minimum of double the current capacity and
        -- the maximum capacity; realloc keeps the data and the tail
        -- of the enlarged buffer is cleared to zero from buf_len
        let cap2 : Int :=
          if pb.buf_cap * 2 > SHASM_BLOCK_MAXBUFFER then
            SHASM_BLOCK_MAXBUFFER
          else pb.buf_cap * 2
        let buf2 : List Int :=
          pb.pBuf.take pb.buf_len.toNat ++
            List.replicate (cap2 - pb.buf_len).toNat 0
        some (true, app { pb with buf_cap := cap2, pBuf := buf2 })
    else
      some (true, app pb)

/-- Temporary buffer state (SHASM_BLOCK_TBUF of shasm_block.c).  Only
the length is tracked: the contents are zeroed on every widen, and
the bytes an encoding-table callback deposits in it are modelled by
the encoding-table function directly (see shasm_block_ereg). -/
structure SHASM_BLOCK_TBUF where
  len : Int
deriving Repr, DecidableEq

/-- shasm_block_tbuf_init of shasm_block.c: zero-length buffer. -/
def shasm_block_tbuf_init : SHASM_BLOCK_TBUF := { len := 0 }

/-- Iterations of the doubling loop of shasm_block_tbuf_widen,
counted down by a fuel argument so that the definition reduces by
computation. -/
def shasm_tbuf_dblGo : Nat → Int → Int → Int
  | 0, tl, _ => tl
  | n + 1, tl, tlen => if tl < tlen then shasm_tbuf_dblGo n (tl * 2) tlen else tl

/-- The doubling loop of shasm_block_tbuf_widen: keep doubling tl
until it is at least tlen.  The loop starts at a positive tl (either
SHASM_BLOCK_MINTBUF or a positive current length) which at least
doubles every iteration, so it runs fewer than tlen.toNat + 1 times
and the fuel never runs out: with this fuel the function equals the
C loop for every positive tl. -/
def shasm_tbuf_dbl (tl tlen : Int) : Int :=
  shasm_tbuf_dblGo (tlen.toNat + 1) tl tlen

/-- shasm_block_tbuf_widen of shasm_block.c: widen the temporary
buffer to at least tlen bytes (doubling from SHASM_BLOCK_MINTBUF or
the current length, clamped at SHASM_BLOCK_MAXBUFFER); fails iff
tlen exceeds SHASM_BLOCK_MAXBUFFER. -/
def shasm_block_tbuf_widen (pt : SHASM_BLOCK_TBUF) (tlen : Int) :
    Bool × SHASM_BLOCK_TBUF :=
  if tlen > SHASM_BLOCK_MAXBUFFER then
    (false, pt)
  else if tlen > pt.len then
    let tl0 : Int := if pt.len < 1 then SHASM_BLOCK_MINTBUF else pt.len
    let tl : Int := shasm_tbuf_dbl tl0 tlen
    let tl : Int := if tl > SHASM_BLOCK_MAXBUFFER then SHASM_BLOCK_MAXBUFFER else tl
    (true, { pt with len := tl })
  else
    (true, pt)

/-- shasm_block_pair of shasm_block.c: split a supplemental codepoint
into its surrogate pair (high surrogate first); a codepoint outside
supplemental range is an abort (none).  The C shifts and masks act on
nonnegative longs, so they are division and remainder by powers of
two. -/
def shasm_block_pair (code : Int) : Option (Int × Int) :=
  if code < SHASM_BLOCK_MINSUPPLEMENTAL ∨ code > SHASM_BLOCK_MAXCODE then
    none
  else
    let offs : Int := code - SHASM_BLOCK_MINSUPPLEMENTAL
    -- pLo = (offs & 0x3ff) + LOSURROGATE
    -- pHi = ((offs >> 10) & 0x3ff) + HISURROGATE
    some (SHASM_BLOCK_HISURROGATE + (offs / 1024) % 1024,
          SHASM_BLOCK_LOSURROGATE + offs % 1024)

/-- Append a sequence of byte values to the block buffer with
shasm_block_addByte, stopping at the first failure (the sequential
addByte calls of the shasm_block.c encoder backends). -/
def shasm_appendBytes (pb : SHASM_BLOCK) (bs : List Int) :
    Option (Bool × SHASM_BLOCK) :=
  match bs with
  | [] => some (true, pb)
  | b :: rest =>
    match shasm_block_addByte pb b with
    | Option.none => Option.none
    | some (false, pb2) => some (false, pb2)
    | some (true, pb2) => shasm_appendBytes pb2 rest

/-- shasm_block_ereg of shasm_block.c: encode an entity through the
encoding table (the regular string method) and append the output
bytes to the block buffer.  The encoding-table callback is modelled
as the function from an entity code to its output byte string (the
callback contract of the spec: referentially transparent, writes its
required length of bytes once the buffer capacity suffices).  The C
retry loop runs at most twice, because a successful widen guarantees
a capacity of at least the required length; it is unrolled here. -/
def shasm_block_ereg (pb : SHASM_BLOCK) (entity : Int)
    (enc : Int → List Int) (pt : SHASM_BLOCK_TBUF) :
    Option (Bool × SHASM_BLOCK × SHASM_BLOCK_TBUF) :=
  -- parameter check: abort on a negative entity code
  if entity < 0 then
    Option.none
  -- fail immediately if block reader in error status
  else if pb.code ≠ SHASM_OKAY then
    some (false, pb, pt)
  else
    let lv : Int := (enc entity).length
    if pt.len ≥ lv then
      -- the temporary buffer was large enough: write each byte
      match shasm_appendBytes pb (enc entity) with
      | Option.none => Option.none
      | some (st, pb2) => some (st, pb2, pt)
    else
      -- widen and retry; a failed widen fails the call
      match shasm_block_tbuf_widen pt lv with
      | (false, pt2) => some (false, pb, pt2)
      | (true, pt2) =>
        match shasm_appendBytes pb (enc entity) with
        | Option.none => Option.none
        | some (st, pb2) => some (st, pb2, pt2)

/-- Continuation-byte extraction loop of shasm_block_utf8: n times,
take the six least significant bits, set the most significant bit,
and shift right six bits.  The list is in extraction order (least
significant group first); the C reverses it before output. -/
def shasm_utf8_cont : Nat → Int → List Int
  | 0, _ => []
  | n + 1, e => (e % 64 + 128) :: shasm_utf8_cont n (e / 64)

/-- Body of shasm_block_utf8 of shasm_block.c for a single codepoint
(the cesu8 = 0 path): byte count from the UTF8_xBYTE thresholds,
continuation bytes in reverse extraction order after the leading byte
carrying the remaining bits together with the length mask.  The OR
with the mask is addition because the remaining bits lie below the
mask for every codepoint in range. -/
def shasm_block_utf8_basic (pb : SHASM_BLOCK) (entity : Int) :
    Option (Bool × SHASM_BLOCK) :=
  -- parameter check
  if entity < 0 ∨ entity > SHASM_BLOCK_MAXCODE then
    Option.none
  -- fail immediately if block reader in error status
  else if pb.code ≠ SHASM_OKAY then
    some (false, pb)
  else
    let codelen : Nat :=
      if entity < SHASM_BLOCK_UTF8_2BYTE then 1
      else if entity < SHASM_BLOCK_UTF8_3BYTE then 2
      else if entity < SHASM_BLOCK_UTF8_4BYTE then 3
      else 4
    let contb : List Int := shasm_utf8_cont (codelen - 1) entity
    let remaining : Int := entity / (64 ^ (codelen - 1) : Nat)
    let lead : Int :=
      if codelen = 2 then remaining + SHASM_BLOCK_UTF8_2MASK
      else if codelen = 3 then remaining + SHASM_BLOCK_UTF8_3MASK
      else if codelen = 4 then remaining + SHASM_BLOCK_UTF8_4MASK
      else remaining
    shasm_appendBytes pb (lead :: contb.reverse)

/-- shasm_block_utf8 of shasm_block.c: UTF-8 (or, when cesu8 is set,
CESU-8) encode an entity and append the bytes.  In CESU-8 mode a
supplemental codepoint is split into its surrogate pair and each
surrogate is UTF-8 encoded (high first); the C does this with a
recursive call whose argument is below supplemental range, embedded
here by the _basic body. -/
def shasm_block_utf8 (pb : SHASM_BLOCK) (entity : Int) (cesu8 : Bool) :
    Option (Bool × SHASM_BLOCK) :=
  if entity < 0 ∨ entity > SHASM_BLOCK_MAXCODE then
    Option.none
  else if pb.code ≠ SHASM_OKAY then
    some (false, pb)
  else if cesu8 ∧ entity ≥ SHASM_BLOCK_MINSUPPLEMENTAL then
    match shasm_block_pair entity with
    | Option.none => Option.none
    | some (s1, s2) =>
      -- encode the high surrogate, then the low surrogate
      match shasm_block_utf8_basic pb s1 with
      | Option.none => Option.none
      | some (false, pb2) => some (false, pb2)
      | some (true, pb2) => shasm_block_utf8_basic pb2 s2
  else
    shasm_block_utf8_basic pb entity

/-- Body of shasm_block_utf16 of shasm_block.c for a single UTF-16
character (a codepoint below supplemental range): its two bytes in
little endian order, reversed when big endian is selected. -/
def shasm_block_utf16_basic (pb : SHASM_BLOCK) (entity : Int)
    (big : Bool) : Option (Bool × SHASM_BLOCK) :=
  if entity < 0 ∨ entity > SHASM_BLOCK_MAXCODE then
    Option.none
  else if pb.code ≠ SHASM_OKAY then
    some (false, pb)
  else
    let vb : List Int := [entity % 256, (entity / 256) % 256]
    shasm_appendBytes pb (if big then vb.reverse else vb)

/-- shasm_block_utf16 of shasm_block.c: UTF-16 encode an entity and
append the bytes; a supplemental codepoint becomes its surrogate
pair, high surrogate first (the C recursive call, embedded by the
_basic body). -/
def shasm_block_utf16 (pb : SHASM_BLOCK) (entity : Int) (big : Bool) :
    Option (Bool × SHASM_BLOCK) :=
  if entity < 0 ∨ entity > SHASM_BLOCK_MAXCODE then
    Option.none
  else if pb.code ≠ SHASM_OKAY then
    some (false, pb)
  else if entity ≥ SHASM_BLOCK_MINSUPPLEMENTAL then
    match shasm_block_pair entity with
    | Option.none => Option.none
    | some (s1, s2) =>
      match shasm_block_utf16_basic pb s1 big with
      | Option.none => Option.none
      | some (false, pb2) => some (false, pb2)
      | some (true, pb2) => shasm_block_utf16_basic pb2 s2 big
  else
    shasm_block_utf16_basic pb entity big

/-- shasm_block_utf32 of shasm_block.c: the four bytes of the entity
in little endian order, reversed when big endian is selected. -/
def shasm_block_utf32 (pb : SHASM_BLOCK) (entity : Int) (big : Bool) :
    Option (Bool × SHASM_BLOCK) :=
  if entity < 0 ∨ entity > SHASM_BLOCK_MAXCODE then
    Option.none
  else if pb.code ≠ SHASM_OKAY then
    some (false, pb)
  else
    let vb : List Int :=
      [entity % 256, (entity / 256) % 256,
       (entity / 65536) % 256, (entity / 16777216) % 256]
    shasm_appendBytes pb (if big then vb.reverse else vb)

/-- Output override modes (the SHASM_BLOCK_OMODE constants of the
missing header shasm_block.h, modelled from the spec as a closed
enumeration; shasm_block.c aborts on any other value, which the
enumeration makes unrepresentable). -/
inductive SHASM_BLOCK_OMODE where
  | NONE
  | UTF8
  | CESU8
  | U16LE
  | U16BE
  | U32LE
  | U32BE
deriving Repr, DecidableEq

/-- shasm_block_encode of shasm_block.c: encode an entity and append
the output bytes, dispatching on the output override mode after
forcing mode NONE for entities beyond Unicode range and, in strict
mode, for surrogates. -/
def shasm_block_encode (pb : SHASM_BLOCK) (entity : Int)
    (enc : Int → List Int) (o_over : SHASM_BLOCK_OMODE)
    (o_strict : Bool) (pt : SHASM_BLOCK_TBUF) :
    Option (Bool × SHASM_BLOCK × SHASM_BLOCK_TBUF) :=
  -- parameter check (o_over needs none: the enumeration is closed)
  if entity < 0 then
    Option.none
  -- fail immediately if block reader in error status
  else if pb.code ≠ SHASM_OKAY then
    some (false, pb, pt)
  else
    -- output overrides are never used outside Unicode range
    let o_over : SHASM_BLOCK_OMODE :=
      if entity > SHASM_BLOCK_MAXCODE then SHASM_BLOCK_OMODE.NONE
      else o_over
    -- in strict mode, output overrides are never used on surrogates
    let o_over : SHASM_BLOCK_OMODE :=
      if o_strict ∧ entity ≥ SHASM_BLOCK_MINSURROGATE ∧
          entity ≤ SHASM_BLOCK_MAXSURROGATE then SHASM_BLOCK_OMODE.NONE
      else o_over
    -- dispatch to the appropriate routine
    match o_over with
    | SHASM_BLOCK_OMODE.NONE => shasm_block_ereg pb entity enc pt
    | SHASM_BLOCK_OMODE.UTF8 =>
      (shasm_block_utf8 pb entity false).map (fun r => (r.1, r.2, pt))
    | SHASM_BLOCK_OMODE.CESU8 =>
      (shasm_block_utf8 pb entity true).map (fun r => (r.1, r.2, pt))
    | SHASM_BLOCK_OMODE.U16LE =>
      (shasm_block_utf16 pb entity false).map (fun r => (r.1, r.2, pt))
    | SHASM_BLOCK_OMODE.U16BE =>
      (shasm_block_utf16 pb entity true).map (fun r => (r.1, r.2, pt))
    | SHASM_BLOCK_OMODE.U32LE =>
      (shasm_block_utf32 pb entity false).map (fun r => (r.1, r.2, pt))
    | SHASM_BLOCK_OMODE.U32BE =>
      (shasm_block_utf32 pb entity true).map (fun r => (r.1, r.2, pt))

/-- shasm_block_count of shasm_block.c: the stored data length, or
zero in error state. -/
def shasm_block_count (pb : SHASM_BLOCK) : Int :=
  if pb.code = SHASM_OKAY then pb.buf_len else 0

/-- shasm_block_ptr of shasm_block.c: a pointer to the buffer.  In
error state a terminating null is first written at the start of the
buffer, so the returned view is an empty string.  When a
null-terminated view is requested while the data contains a null
byte, the NULL pointer (here Option.none) is returned.  The returned
buffer and the (possibly modified) block state are both given. -/
def shasm_block_ptr (pb : SHASM_BLOCK) (null_term : Bool) :
    Option (List Int) × SHASM_BLOCK :=
  if pb.code ≠ SHASM_OKAY then
    let buf2 : List Int := pb.pBuf.set 0 0
    (some buf2, { pb with pBuf := buf2 })
  else if null_term ∧ pb.null_present then
    (Option.none, pb)
  else
    (some pb.pBuf, pb)

/-- shasm_block_line of shasm_block.c: the line number field, or
LONG_MAX in error state. -/
def shasm_block_line (pb : SHASM_BLOCK) : Int :=
  if pb.code = SHASM_OKAY then pb.line else LONG_MAX

/-- The C string a caller sees through a returned char pointer: the
bytes up to the first null byte. -/
def cstring_view (l : List Int) : List Int :=
  l.takeWhile (fun b => b ≠ 0)

/-- A block reader whose buffer holds 32766 data bytes with the
capacity at the SHASM_BLOCK_MAXBUFFER ceiling: the state the capacity
doubling of shasm_block_addByte produces once 32766 bytes have been
appended to a fresh block reader (capacities 32, 64, ..., 16384,
32767). -/
def blockAtCeiling : SHASM_BLOCK :=
  { code := SHASM_OKAY, line := 1, buf_cap := 32767, buf_len := 32766,
    null_present := false, pBuf := List.replicate 32767 0 }

/-- A block reader latched in an error state. -/
def blockInError : SHASM_BLOCK :=
  { code := SHASM_ERR_HUGEBLOCK, line := 7, buf_cap := 32,
    buf_len := 0, null_present := false,
    pBuf := List.replicate 32 0 }

/-- A filter that has read at least one character and is latched at
End Of File: a terminal state. -/
def filterAtEof : SNFILTER :=
  { line_count := 1, c := SNERR_EOF, pushback := false,
    bom_present := false }

/-- A filter in the ordinary mid-stream condition: some characters
read, no pushback pending, last result an ordinary byte. -/
def filterMidStream : SNFILTER :=
  { line_count := 1, c := 65, pushback := false, bom_present := false }

/-!
Theorems for the claims.
-/

/-- C1: the claim states that shasm_block_addByte fails exactly when
the append would raise the stored data length above 32766 bytes with
the capacity at the 32767 ceiling.  The code instead lets that append
succeed: from stored length 32766 at capacity 32767 the append
returns success and the length becomes 32767 (claiming the slot the
code reserves for the terminating null); only the next append, from
length 32767, fails.  This theorem evaluates the embedded code at
that failing input. -/
theorem C1_addByte_ceiling_off_by_one :
    ((do
      let r1 ← shasm_block_addByte blockAtCeiling 0x41
      let r2 ← shasm_block_addByte r1.2 0x42
      pure (r1.1, r1.2.buf_len, r2.1, r2.2.buf_len)) :
        Option (Bool × Int × Bool × Int)) =
      some (true, 32767, false, 32767) := by
  rfl

/-- C4 counterexample: the claim states snfilter_pushback returns
failure (zero) whenever the filter is in a terminal state.  On a
filter latched at EOF after one read, snfilter_pushback returns the
C non-zero success status (and performs nothing). -/
theorem C4_terminal_pushback_counterexample :
    (snfilter_pushback filterAtEof).1 = true ∧
      ¬ (snfilter_pushback filterAtEof).1 = false := by
  decide

/-- C4 amended: snfilter_pushback returns failure (zero) exactly when
no character has been read yet (line_count = 0) or when the last read
delivered an ordinary character (c nonnegative) and pushback is
already active.  In a terminal state (negative c after at least one
read) the call returns success but is a no-op: the pushback flag is
not set and the state is unchanged. -/
theorem C4_pushback_failure_condition (f : SNFILTER)
    (h : 0 ≤ f.line_count) :
    ((snfilter_pushback f).1 = false ↔
      (f.line_count = 0 ∨ (0 ≤ f.c ∧ f.pushback = true))) ∧
    (0 < f.line_count → f.c < 0 → snfilter_pushback f = (true, f)) := by
  obtain ⟨lc, c, pb, bom⟩ := f
  constructor
  · cases pb <;>
      simp only [snfilter_pushback] <;>
      split_ifs with h1 h2 <;>
      simp_all <;>
      omega
  · intro h1 h2
    simp only [snfilter_pushback]
    dsimp only at h1 h2 ⊢
    rw [if_neg (by omega)]

/-- C4 witness: the amended theorem applied to the EOF-latched
filter. -/
theorem C4_pushback_failure_condition_witness :
    (((snfilter_pushback filterAtEof).1 = false ↔
      (filterAtEof.line_count = 0 ∨
        (0 ≤ filterAtEof.c ∧ filterAtEof.pushback = true))) ∧
    (0 < filterAtEof.line_count → filterAtEof.c < 0 →
      snfilter_pushback filterAtEof = (true, filterAtEof))) :=
  C4_pushback_failure_condition filterAtEof (by decide)

/-- C5: the claim states that once snfilter_read has returned
BadSignature the filter is latched into that error.  On the input
file with bytes 0xEF 0x41 the first read returns SNERR_BADSIG, but
the second read returns SNERR_EOF, not SNERR_BADSIG: line_count is
never advanced on the error path, so the next call runs the
signature check again and keeps reading the file, contrary to the
function's own contract ("The filter will not continue reading the
file in this case"). -/
theorem C5_badsig_not_latched :
    (snfilter_read snfilter_reset [0xef, 0x41]).1 = SNERR_BADSIG ∧
    (snfilter_read (snfilter_read snfilter_reset [0xef, 0x41]).2.1
        (snfilter_read snfilter_reset [0xef, 0x41]).2.2).1 = SNERR_EOF ∧
    SNERR_EOF ≠ SNERR_BADSIG := by
  decide

/-- C7: for every supplemental codepoint e, shasm_block_pair yields
exactly the pair (0xD800 + (e - 0x10000) >> 10,
0xDC00 + ((e - 0x10000) & 0x3FF)), high surrogate first, and
recombining the two surrogates yields e again. -/
theorem C7_surrogate_pair_roundtrip (e : Int)
    (h1 : SHASM_BLOCK_MINSUPPLEMENTAL ≤ e)
    (h2 : e ≤ SHASM_BLOCK_MAXCODE) :
    shasm_block_pair e =
      some (SHASM_BLOCK_HISURROGATE + (e - SHASM_BLOCK_MINSUPPLEMENTAL) / 1024,
            SHASM_BLOCK_LOSURROGATE + (e - SHASM_BLOCK_MINSUPPLEMENTAL) % 1024) ∧
    (shasm_block_pair e).map
      (fun p => (p.1 - SHASM_BLOCK_HISURROGATE) * 1024 +
        (p.2 - SHASM_BLOCK_LOSURROGATE) + SHASM_BLOCK_MINSUPPLEMENTAL) =
      some e ∧
    (shasm_block_pair e).map
      (fun p => SHASM_BLOCK_MINSURROGATE ≤ p.1 ∧ p.1 < SHASM_BLOCK_LOSURROGATE ∧
        SHASM_BLOCK_LOSURROGATE ≤ p.2 ∧ p.2 ≤ SHASM_BLOCK_MAXSURROGATE) =
      some True := by
  have hpair : shasm_block_pair e =
      some (SHASM_BLOCK_HISURROGATE +
              (e - SHASM_BLOCK_MINSUPPLEMENTAL) / 1024,
            SHASM_BLOCK_LOSURROGATE +
              (e - SHASM_BLOCK_MINSUPPLEMENTAL) % 1024) := by
    simp only [shasm_block_pair, SHASM_BLOCK_MINSUPPLEMENTAL,
      SHASM_BLOCK_MAXCODE, SHASM_BLOCK_HISURROGATE,
      SHASM_BLOCK_LOSURROGATE] at *
    rw [if_neg (by omega)]
    simp only [Option.some.injEq, Prod.mk.injEq]
    exact ⟨by omega, trivial⟩
  refine ⟨hpair, ?_, ?_⟩
  · rw [hpair]
    simp only [Option.map_some', Option.some.injEq,
      SHASM_BLOCK_MINSUPPLEMENTAL, SHASM_BLOCK_HISURROGATE,
      SHASM_BLOCK_LOSURROGATE] at *
    omega
  · rw [hpair]
    simp only [Option.map_some', Option.some.injEq,
      SHASM_BLOCK_MINSUPPLEMENTAL, SHASM_BLOCK_MINSURROGATE,
      SHASM_BLOCK_HISURROGATE, SHASM_BLOCK_LOSURROGATE,
      SHASM_BLOCK_MAXSURROGATE, SHASM_BLOCK_MAXCODE] at *
    exact eq_true ⟨by omega, by omega, by omega, by omega⟩

/-- C7 witness: the round-trip theorem applied at U+10348. -/
theorem C7_surrogate_pair_roundtrip_witness :
    shasm_block_pair 0x10348 =
      some (SHASM_BLOCK_HISURROGATE + (0x10348 - SHASM_BLOCK_MINSUPPLEMENTAL) / 1024,
            SHASM_BLOCK_LOSURROGATE + (0x10348 - SHASM_BLOCK_MINSUPPLEMENTAL) % 1024) ∧
    (shasm_block_pair 0x10348).map
      (fun p => (p.1 - SHASM_BLOCK_HISURROGATE) * 1024 +
        (p.2 - SHASM_BLOCK_LOSURROGATE) + SHASM_BLOCK_MINSUPPLEMENTAL) =
      some 0x10348 ∧
    (shasm_block_pair 0x10348).map
      (fun p => SHASM_BLOCK_MINSURROGATE ≤ p.1 ∧ p.1 < SHASM_BLOCK_LOSURROGATE ∧
        SHASM_BLOCK_LOSURROGATE ≤ p.2 ∧ p.2 ≤ SHASM_BLOCK_MAXSURROGATE) =
      some True :=
  C7_surrogate_pair_roundtrip 0x10348 (by decide) (by decide)

/-- C9: whenever the block reader is in an error state,
shasm_block_count returns 0, the buffer view shasm_block_ptr returns
reads as the empty C string (a terminating null is written at its
start), and shasm_block_line returns LONG_MAX; this holds for every
error-state value of the structure, hence after every sequence of
operations that put the reader into error state. -/
theorem C9_error_state_views (pb : SHASM_BLOCK) (null_term : Bool)
    (h : pb.code ≠ SHASM_OKAY) :
    shasm_block_count pb = 0 ∧
    (shasm_block_ptr pb null_term).1 = some (pb.pBuf.set 0 0) ∧
    cstring_view ((shasm_block_ptr pb null_term).1.getD []) = [] ∧
    shasm_block_line pb = LONG_MAX := by
  refine ⟨?_, ?_, ?_, ?_⟩
  · simp [shasm_block_count, h]
  · simp [shasm_block_ptr, h]
  · simp only [shasm_block_ptr, if_pos h, Option.getD_some]
    cases pb.pBuf <;> simp [cstring_view]
  · simp [shasm_block_line, h]

/-- C9 witness: the error-state views theorem applied to a concrete
error-latched block reader. -/
theorem C9_error_state_views_witness :
    shasm_block_count blockInError = 0 ∧
    (shasm_block_ptr blockInError true).1 =
      some (blockInError.pBuf.set 0 0) ∧
    cstring_view ((shasm_block_ptr blockInError true).1.getD []) = [] ∧
    shasm_block_line blockInError = LONG_MAX :=
  C9_error_state_views blockInError true (by decide)

/-- C2 counterexample: the claim states that a backslash-backslash
pair does not escape the character that follows, so that string data
backslash, backslash, closing delimiter terminates the literal at
that delimiter.  On that very input the embedded snstr_readQuoted
does not terminate at the delimiter: it runs to end of input and
fails with SNERR_OPENSTR, because the second backslash set the
escape flag again. -/
theorem C2_escaped_delimiter_counterexample :
    snstr_readQuoted 65535 [92, 92, 34] = .err SNERR_OPENSTR ∧
    ¬ snstr_readQuoted 65535 [92, 92, 34] = .ok [92, 92] [] := by
  decide

/-- C2 amended: the escape flag after processing a byte is set
exactly when that byte is a backslash (independently of the previous
flag value), so a backslash-backslash pair leaves the flag set and
DOES escape the character that follows: for data backslash,
backslash, delimiter, delimiter the reader treats the first
delimiter as escaped string data and terminates only at the
second. -/
theorem C2_escape_flag_semantics (maxcap : Int) (esc : Bool)
    (buf : List Int) (c : Int) (rest : List Int)
    (h1 : 1 ≤ c) (h2 : c ≤ 255)
    (h3 : esc = true ∨ c ≠ ASCII_DQUOTE)
    (h4 : (buf.length : Int) < maxcap - 1) :
    snstr_readQuotedLoop maxcap esc buf (c :: rest) =
      snstr_readQuotedLoop maxcap (decide (c = ASCII_BACKSLASH))
        (buf ++ [c]) rest ∧
    snstr_readQuoted 65535 [92, 92, 34, 34] = .ok [92, 92, 34] [] := by
  constructor
  · simp only [snstr_readQuotedLoop, snbuffer_append]
    rw [if_neg (by omega)]
    rw [if_neg (by rcases h3 with h3 | h3 <;> simp [h3])]
    rw [if_neg (by omega)]
    rw [if_neg (by omega)]
    rw [if_pos h4]
  · decide

/-- C2 witness: the escape-flag equation applied to the byte 65 with
the flag clear, plus the concrete escaped-delimiter run. -/
theorem C2_escape_flag_semantics_witness :
    (snstr_readQuotedLoop 65535 false [] ((65 : Int) :: [34]) =
      snstr_readQuotedLoop 65535 (decide ((65 : Int) = ASCII_BACKSLASH))
        ([] ++ [65]) [34] ∧
    snstr_readQuoted 65535 [92, 92, 34, 34] = .ok [92, 92, 34] []) :=
  C2_escape_flag_semantics 65535 false [] 65 [34] (by decide) (by decide)
    (Or.inr (by decide)) (by decide)

/-- C3 counterexample: the claim states that a token whose first
character is one of the twelve atomic characters, the apostrophe
among them, is exactly that single character.  On the input
apostrophe, letter a, space, the embedded scanner returns the
two-character token apostrophe-a: snchar_isatomic does not contain
the apostrophe, so scanning continues past it. -/
theorem C3_apostrophe_counterexample :
    sntk_readToken 1024 [39, 97, 32] = .ok [39, 97] [32] ∧
    ¬ sntk_readToken 1024 [39, 97, 32] = .ok [39] [97, 32] := by
  decide

/-- C3 amended: for the eleven characters the code treats as atomic,
( ) [ ] , % ; double-quote grave-accent left-curly right-curly (the
apostrophe excluded), a token starting with that character consists
of exactly that character, whatever bytes follow. -/
theorem C3_atomic_single_character (maxcap c : Int) (rest : List Int)
    (hcap : 2 ≤ maxcap) (h : snchar_isatomic c = true) :
    sntk_readToken maxcap (c :: rest) = .ok [c] rest := by
  have hx : (0 : Int) < maxcap - 1 := by omega
  simp only [snchar_isatomic, decide_eq_true_eq] at h
  rcases h with h | h | h | h | h | h | h | h | h | h | h <;>
    subst h <;>
    simp [sntk_readToken, sntk_skip, snstream_read, snstream_pushback,
      snchar_islegal, snchar_isatomic, snbuffer_append, hx,
      ASCII_LPAREN, ASCII_RPAREN, ASCII_LSQR, ASCII_RSQR, ASCII_COMMA,
      ASCII_PERCENT, ASCII_SEMICOLON, ASCII_DQUOTE, ASCII_GRACCENT,
      ASCII_LCURL, ASCII_RCURL, ASCII_SP, ASCII_HT, ASCII_LF,
      ASCII_POUNDSIGN, ASCII_BAR, ASCII_VISIBLE_MIN, ASCII_VISIBLE_MAX,
      SNERR_EOF]

/-- C3 witness: the amended theorem applied to a left parenthesis
followed by further input. -/
theorem C3_atomic_single_character_witness :
    sntk_readToken 1024 ((40 : Int) :: [120]) = .ok [40] [120] :=
  C3_atomic_single_character 1024 40 [120] (by decide) (by decide)

/-- C6: for every entity code beyond the Unicode range, and in
strict mode for every surrogate, shasm_block_encode produces exactly
what it produces with override mode NONE, namely the output of the
encoding-table backend shasm_block_ereg: the selected override mode
has no effect. -/
theorem C6_override_forced_to_none (pb : SHASM_BLOCK) (entity : Int)
    (enc : Int → List Int) (o_over : SHASM_BLOCK_OMODE)
    (o_strict : Bool) (pt : SHASM_BLOCK_TBUF)
    (h : SHASM_BLOCK_MAXCODE < entity ∨
      (o_strict = true ∧ SHASM_BLOCK_MINSURROGATE ≤ entity ∧
        entity ≤ SHASM_BLOCK_MAXSURROGATE)) :
    shasm_block_encode pb entity enc o_over o_strict pt =
      shasm_block_encode pb entity enc SHASM_BLOCK_OMODE.NONE o_strict pt ∧
    shasm_block_encode pb entity enc o_over o_strict pt =
      shasm_block_ereg pb entity enc pt := by
  have key : ∀ m : SHASM_BLOCK_OMODE,
      shasm_block_encode pb entity enc m o_strict pt =
        shasm_block_ereg pb entity enc pt := by
    intro m
    simp only [shasm_block_encode]
    split_ifs with h0 hc h2 h1
    · rw [shasm_block_ereg, if_pos h0]
    · rw [shasm_block_ereg, if_neg h0, if_pos hc]
    · rfl
    · rfl
    · exfalso
      rcases h with hA | hB
      · exact h1 hA
      · exact h2 ⟨hB.1, hB.2.1, hB.2.2⟩
  exact ⟨(key o_over).trans (key SHASM_BLOCK_OMODE.NONE).symm, key o_over⟩

/-- C6 witness: the forced-NONE theorem applied to the non-Unicode
entity 0x200005 under the UTF8 override. -/
theorem C6_override_forced_to_none_witness :
    shasm_block_encode shasm_block_alloc 0x200005 (fun _ => [1, 2])
        SHASM_BLOCK_OMODE.UTF8 false shasm_block_tbuf_init =
      shasm_block_encode shasm_block_alloc 0x200005 (fun _ => [1, 2])
        SHASM_BLOCK_OMODE.NONE false shasm_block_tbuf_init ∧
    shasm_block_encode shasm_block_alloc 0x200005 (fun _ => [1, 2])
        SHASM_BLOCK_OMODE.UTF8 false shasm_block_tbuf_init =
      shasm_block_ereg shasm_block_alloc 0x200005 (fun _ => [1, 2])
        shasm_block_tbuf_init :=
  C6_override_forced_to_none shasm_block_alloc 0x200005 (fun _ => [1, 2])
    SHASM_BLOCK_OMODE.UTF8 false shasm_block_tbuf_init
    (Or.inl (by decide))

/-- The quoted string reader loop never reaches the abort inside
snbuffer_append for streams of filter results (all at most 255):
negative results and the null byte are rejected first. -/
lemma snstr_readQuotedLoop_no_fault (maxcap : Int) (s : List Int)
    (h : ∀ x ∈ s, x ≤ 255) :
    ∀ esc buf, snstr_readQuotedLoop maxcap esc buf s ≠ .fault := by
  induction s with
  | nil =>
    intro esc buf
    simp [snstr_readQuotedLoop]
  | cons c rest ih =>
    intro esc buf
    have hc : c ≤ 255 := h c (by simp)
    have hrest : ∀ x ∈ rest, x ≤ 255 := fun x hx => h x (by simp [hx])
    simp only [snstr_readQuotedLoop]
    split_ifs <;> try simp
    all_goals
      (have hr : ¬ (c < 1 ∨ c > 255) := by omega
       simp only [snbuffer_append, if_neg hr]
       split_ifs <;> first | exact ih hrest _ _ | simp)

/-- The curly string reader loop never reaches the abort inside
snbuffer_append for streams of filter results (all at most 255). -/
lemma snstr_readCurliedLoop_no_fault (maxcap : Int) (s : List Int)
    (h : ∀ x ∈ s, x ≤ 255) :
    ∀ esc nest buf, snstr_readCurliedLoop maxcap esc nest buf s ≠ .fault := by
  induction s with
  | nil =>
    intro esc nest buf
    simp [snstr_readCurliedLoop]
  | cons c rest ih =>
    intro esc nest buf
    have hc : c ≤ 255 := h c (by simp)
    have hrest : ∀ x ∈ rest, x ≤ 255 := fun x hx => h x (by simp [hx])
    simp only [snstr_readCurliedLoop]
    split_ifs <;> try simp
    all_goals
      (have hr : ¬ (c < 1 ∨ c > 255) := by omega
       simp only [snbuffer_append, if_neg hr]
       split_ifs <;> first | exact ih hrest _ _ _ | simp)

/-- C10: on every stream of filter results (bytes 0-255 or negative
sentinels, hence every value at most 255), the string readers reject
negative results and the null byte before appending, so every
snbuffer_append call they make receives a byte in 1-255 and the
out-of-range abort inside snbuffer_append is unreachable. -/
theorem C10_reader_appends_in_range (maxcap : Int) (s : List Int)
    (h : ∀ x ∈ s, x ≤ 255) :
    snstr_readQuoted maxcap s ≠ .fault ∧
    snstr_readCurlied maxcap s ≠ .fault :=
  ⟨snstr_readQuotedLoop_no_fault maxcap s h false [],
   snstr_readCurliedLoop_no_fault maxcap s h false 1 []⟩

/-- C10 witness: the no-fault theorem applied to a short concrete
stream. -/
theorem C10_reader_appends_in_range_witness :
    snstr_readQuoted 65535 [65, 34] ≠ .fault ∧
    snstr_readCurlied 65535 [65, 34] ≠ .fault :=
  C10_reader_appends_in_range 65535 [65, 34] (by decide)

/-- The BOM block returns okay, EOF or BadSignature, and never
touches the stored character, the line counter or the pushback
flag. -/
lemma snfilter_read_bom_facts (flt : SNFILTER) (fil : List Int) :
    ((snfilter_read_bom flt fil).1 = 0 ∨
     (snfilter_read_bom flt fil).1 = SNERR_EOF ∨
     (snfilter_read_bom flt fil).1 = SNERR_BADSIG) ∧
    (snfilter_read_bom flt fil).2.1.c = flt.c ∧
    (snfilter_read_bom flt fil).2.1.line_count = flt.line_count ∧
    (snfilter_read_bom flt fil).2.1.pushback = flt.pushback := by
  rcases fil with _ | ⟨b1, _ | ⟨b2, _ | ⟨b3, f3⟩⟩⟩ <;>
    simp only [snfilter_read_bom, fgetc, fungetc] <;>
    split_ifs <;>
    simp_all

set_option maxHeartbeats 1000000 in
/-- The normal-read block either succeeds or fails with EOF leaving
the stored character untouched; on success the new stored character
is never CR (a CR was converted to LF); the pushback flag is never
touched. -/
lemma snfilter_read_normal_facts (flt : SNFILTER) (fil : List Int) :
    ((snfilter_read_normal flt fil).1 = 0 ∨
      ((snfilter_read_normal flt fil).1 = SNERR_EOF ∧
       (snfilter_read_normal flt fil).2.1.c = flt.c)) ∧
    ((snfilter_read_normal flt fil).1 ≠ 0 ∨
      (snfilter_read_normal flt fil).2.1.c ≠ ASCII_CR) ∧
    (snfilter_read_normal flt fil).2.1.pushback = flt.pushback := by
  rcases fil with _ | ⟨b1, _ | ⟨b2, f2⟩⟩ <;>
    simp only [snfilter_read_normal, fgetc, fungetc, ASCII_CR, ASCII_LF,
      SNERR_EOF] <;>
    split_ifs <;>
    simp_all

/-- snfilter_read never delivers a CR, provided the stored character
is not CR (true of every reachable filter state, the initial state
included: only snfilter_read writes the field, and never with CR). -/
lemma snfilter_read_no_cr (st : SNFILTER) (f : List Int)
    (h : st.c ≠ ASCII_CR) :
    (snfilter_read st f).1 ≠ ASCII_CR ∧
    (snfilter_read st f).2.1.c ≠ ASCII_CR := by
  obtain ⟨hb1, hb2, hb3, hb4⟩ := snfilter_read_bom_facts st f
  obtain ⟨hn1a, hn1b, hn1c⟩ := snfilter_read_normal_facts
    (snfilter_read_bom st f).2.1 (snfilter_read_bom st f).2.2
  obtain ⟨hn2a, hn2b, hn2c⟩ := snfilter_read_normal_facts st f
  have key : (snfilter_read st f).1 ≠ ASCII_CR := by
    simp only [snfilter_read, SNERR_EOF, SNERR_BADSIG, ASCII_CR] at *
    split_ifs <;> (try dsimp only at *) <;> omega
  exact ⟨key, key⟩

/-- In the ordinary mid-stream state (no pushback, at least one
character read, last result an ordinary byte) a successful
snfilter_read is exactly the normal-read block followed by clearing
the pushback flag. -/
lemma snfilter_read_midstream (st : SNFILTER) (f : List Int)
    (h1 : st.pushback = false) (h2 : 1 ≤ st.line_count)
    (h3 : 0 ≤ st.c) (h4 : (snfilter_read_normal st f).1 = 0) :
    (snfilter_read st f).1 = (snfilter_read_normal st f).2.1.c ∧
    (snfilter_read st f).2.2 = (snfilter_read_normal st f).2.2 := by
  simp only [snfilter_read]
  rw [if_neg (show ¬ st.line_count = 0 by omega)]
  dsimp only
  rw [if_pos (show (0:Int) = 0 ∧ st.pushback = false ∧
    (st.line_count = 0 ∨ st.c ≥ 0) from ⟨rfl, h1, Or.inr h3⟩)]
  rw [if_neg (show ¬ (snfilter_read_normal st f).1 ≠ 0 by simp [h4])]
  exact ⟨rfl, rfl⟩

/-- The normal-read block on a CR LF pair: both bytes are consumed
and a single LF comes out. -/
lemma snfilter_read_normal_crlf (st : SNFILTER) (rest : List Int) :
    (snfilter_read_normal st (ASCII_CR :: ASCII_LF :: rest)).1 = 0 ∧
    (snfilter_read_normal st (ASCII_CR :: ASCII_LF :: rest)).2.1.c = ASCII_LF ∧
    (snfilter_read_normal st (ASCII_CR :: ASCII_LF :: rest)).2.2 = rest := by
  simp only [snfilter_read_normal, fgetc, fungetc, ASCII_CR, ASCII_LF]
  norm_num
  split_ifs <;> simp_all

/-- The normal-read block on an LF CR pair: both bytes are consumed
and a single LF comes out. -/
lemma snfilter_read_normal_lfcr (st : SNFILTER) (rest : List Int) :
    (snfilter_read_normal st (ASCII_LF :: ASCII_CR :: rest)).1 = 0 ∧
    (snfilter_read_normal st (ASCII_LF :: ASCII_CR :: rest)).2.1.c = ASCII_LF ∧
    (snfilter_read_normal st (ASCII_LF :: ASCII_CR :: rest)).2.2 = rest := by
  simp only [snfilter_read_normal, fgetc, fungetc, ASCII_CR, ASCII_LF]
  norm_num
  split_ifs <;> simp_all

/-- The normal-read block on a bare CR (not followed by LF, in a file
of true bytes so the peeked value is not the EOF marker): the CR is
consumed, the peeked byte is pushed back, and LF comes out. -/
lemma snfilter_read_normal_cr (st : SNFILTER) (rest : List Int)
    (h : rest.head? ≠ some ASCII_LF) (hm : rest.head? ≠ some (-1)) :
    (snfilter_read_normal st (ASCII_CR :: rest)).1 = 0 ∧
    (snfilter_read_normal st (ASCII_CR :: rest)).2.1.c = ASCII_LF ∧
    (snfilter_read_normal st (ASCII_CR :: rest)).2.2 = rest := by
  rcases rest with _ | ⟨b, rest2⟩ <;>
    simp only [List.head?, Option.some.injEq, ne_eq, ASCII_CR, ASCII_LF]
      at h hm <;>
    simp only [snfilter_read_normal, fgetc, fungetc, ASCII_CR, ASCII_LF] <;>
    norm_num <;>
    split_ifs <;> simp_all

/-- The normal-read block on a bare LF (not followed by CR, in a file
of true bytes so the peeked value is not the EOF marker): the LF is
consumed, the peeked byte is pushed back, and LF comes out. -/
lemma snfilter_read_normal_lf (st : SNFILTER) (rest : List Int)
    (h : rest.head? ≠ some ASCII_CR) (hm : rest.head? ≠ some (-1)) :
    (snfilter_read_normal st (ASCII_LF :: rest)).1 = 0 ∧
    (snfilter_read_normal st (ASCII_LF :: rest)).2.1.c = ASCII_LF ∧
    (snfilter_read_normal st (ASCII_LF :: rest)).2.2 = rest := by
  rcases rest with _ | ⟨b, rest2⟩ <;>
    simp only [List.head?, Option.some.injEq, ne_eq, ASCII_CR, ASCII_LF]
      at h hm <;>
    simp only [snfilter_read_normal, fgetc, fungetc, ASCII_CR, ASCII_LF] <;>
    norm_num <;>
    split_ifs <;> simp_all

/-- C8: from any ordinary mid-stream filter state and any file of
true bytes, the input sequences CR LF and LF CR are consumed whole
and delivered as one LF; a bare CR and a bare LF are each delivered
as one LF with the following byte pushed back; and the filter never
delivers a CR (its stored character is never CR in any reachable
state). -/
theorem C8_line_ending_normalization (st : SNFILTER) (rest f : List Int)
    (h1 : st.pushback = false) (h2 : 1 ≤ st.line_count)
    (h3 : 0 ≤ st.c) (h4 : st.c ≠ ASCII_CR)
    (hbytes : ∀ x ∈ rest, 0 ≤ x) :
    ((snfilter_read st (ASCII_CR :: ASCII_LF :: rest)).1 = ASCII_LF ∧
     (snfilter_read st (ASCII_CR :: ASCII_LF :: rest)).2.2 = rest) ∧
    ((snfilter_read st (ASCII_LF :: ASCII_CR :: rest)).1 = ASCII_LF ∧
     (snfilter_read st (ASCII_LF :: ASCII_CR :: rest)).2.2 = rest) ∧
    (rest.head? ≠ some ASCII_LF →
      (snfilter_read st (ASCII_CR :: rest)).1 = ASCII_LF ∧
      (snfilter_read st (ASCII_CR :: rest)).2.2 = rest) ∧
    (rest.head? ≠ some ASCII_CR →
      (snfilter_read st (ASCII_LF :: rest)).1 = ASCII_LF ∧
      (snfilter_read st (ASCII_LF :: rest)).2.2 = rest) ∧
    (snfilter_read st f).1 ≠ ASCII_CR := by
  have hm : rest.head? ≠ some (-1) := by
    cases rest with
    | nil => simp
    | cons b r =>
      have hb := hbytes b (by simp)
      simp only [List.head?, Option.some.injEq, ne_eq]
      omega
  refine ⟨?_, ?_, ?_, ?_, (snfilter_read_no_cr st f h4).1⟩
  · obtain ⟨e0, hc, hf⟩ := snfilter_read_normal_crlf st rest
    obtain ⟨r1, r2⟩ := snfilter_read_midstream st _ h1 h2 h3 e0
    exact ⟨r1.trans hc, r2.trans hf⟩
  · obtain ⟨e0, hc, hf⟩ := snfilter_read_normal_lfcr st rest
    obtain ⟨r1, r2⟩ := snfilter_read_midstream st _ h1 h2 h3 e0
    exact ⟨r1.trans hc, r2.trans hf⟩
  · intro hh
    obtain ⟨e0, hc, hf⟩ := snfilter_read_normal_cr st rest hh hm
    obtain ⟨r1, r2⟩ := snfilter_read_midstream st _ h1 h2 h3 e0
    exact ⟨r1.trans hc, r2.trans hf⟩
  · intro hh
    obtain ⟨e0, hc, hf⟩ := snfilter_read_normal_lf st rest hh hm
    obtain ⟨r1, r2⟩ := snfilter_read_midstream st _ h1 h2 h3 e0
    exact ⟨r1.trans hc, r2.trans hf⟩

/-- C8 witness: the normalization theorem applied to a concrete
mid-stream state and concrete tails. -/
theorem C8_line_ending_normalization_witness :
    ((snfilter_read filterMidStream (ASCII_CR :: ASCII_LF :: [66])).1 = ASCII_LF ∧
     (snfilter_read filterMidStream (ASCII_CR :: ASCII_LF :: [66])).2.2 = [66]) ∧
    ((snfilter_read filterMidStream (ASCII_LF :: ASCII_CR :: [66])).1 = ASCII_LF ∧
     (snfilter_read filterMidStream (ASCII_LF :: ASCII_CR :: [66])).2.2 = [66]) ∧
    (([66] : List Int).head? ≠ some ASCII_LF →
      (snfilter_read filterMidStream (ASCII_CR :: [66])).1 = ASCII_LF ∧
      (snfilter_read filterMidStream (ASCII_CR :: [66])).2.2 = [66]) ∧
    (([66] : List Int).head? ≠ some ASCII_CR →
      (snfilter_read filterMidStream (ASCII_LF :: [66])).1 = ASCII_LF ∧
      (snfilter_read filterMidStream (ASCII_LF :: [66])).2.2 = [66]) ∧
    (snfilter_read filterMidStream [13, 13, 10]).1 ≠ ASCII_CR :=
  C8_line_ending_normalization filterMidStream [66] [13, 13, 10]
    (by decide) (by decide) (by decide) (by decide) (by decide)

end Shastina
